import Mathlib

/-!
Shallow embedding of the linked-list and binary-search-tree components of the
CSC111 repository (src/LinkedList.py and src/BinarySearchTrees.py), together
with theorems settling the specification claims about them.

Modelling conventions:
* A Python `Optional[_Node]` chain is modelled as a Lean `List`: the value
  `[]` is the `None` pointer and `x :: xs` is the node with `item = x` and
  `next = xs`.  Following `curr = curr.next` is structural recursion on the
  list; `curr.next is None` is the test that the tail is `[]`.
* Mutation is modelled by returning the updated structure; a Python method
  that can raise returns `Except PyErr`.  The error constructors correspond
  to the Python exception classes actually raised.
* The two loops in the source that never advance `curr` (in `maximum` and in
  `count`) cannot be written as structural recursion; they are modelled with
  an explicit fuel argument, where the result `none` means the loop is still
  running after `fuel` iterations.  Divergence is the theorem that the result
  is `none` for every fuel.
* Python `int` values are modelled as `ℤ`; the float `-math.inf` seed of
  `maximum` is modelled as the bottom element of `WithBot ℤ`.
-/

namespace CSC111

/-- Error kinds raised by the Python code: `IndexError`, `ValueError`,
`AttributeError` (a crash from dereferencing `None`), and the custom
`EmptyListError` of src/LinkedList.py. -/
inductive PyErr where
  | indexError : PyErr
  | valueError : PyErr
  | attributeError : PyErr
  | emptyListError : PyErr
deriving DecidableEq

namespace LL

/-- Python `LinkedList.append` (src/LinkedList.py lines 237-256): if the list
is empty the new node becomes first, otherwise walk to the last node and link
the new node after it. -/
def append {α : Type} : List α → α → List α
  | [], v => [v]
  | x :: xs, v => x :: append xs v

/-- Python `LinkedList.__init__` (src/LinkedList.py lines 44-57): starting
from an empty list, each item of the input is linked at the tracked tail, so
the chain is built by repeatedly appending at the end. -/
def construct {α : Type} (items : List α) : List α :=
  List.foldl append [] items

/-- Python `LinkedList.to_list` (src/LinkedList.py lines 141-150): walk the
chain from first, accumulating the items in traversal order. -/
def to_list {α : Type} : List α → List α
  | [] => []
  | x :: xs => x :: to_list xs

/-- Loop of Python `LinkedList.maximum` (src/LinkedList.py lines 173-175):
`while curr is not None: max_so_far = max(max_so_far, curr.item)`.  The body
never advances `curr`, so from a state where `curr` is a node the loop can
only run again.  `none` means the loop has not finished within `fuel`
iterations. -/
def maximumLoop : Nat → WithBot ℤ → List ℤ → Option (WithBot ℤ)
  | 0, _, _ => none
  | _ + 1, m, [] => some m
  | fuel + 1, m, x :: rest => maximumLoop fuel (max m (x : WithBot ℤ)) (x :: rest)

/-- Python `LinkedList.maximum` (src/LinkedList.py lines 152-176):
`max_so_far` starts at `-math.inf`; an empty list raises `EmptyListError`;
otherwise the loop above runs. -/
def maximum (fuel : Nat) (first : List ℤ) : Option (Except PyErr (WithBot ℤ)) :=
  match first with
  | [] => some (Except.error PyErr.emptyListError)
  | x :: rest => (maximumLoop fuel (⊥ : WithBot ℤ) (x :: rest)).map Except.ok

/-- Loop of Python `LinkedList.count` (src/LinkedList.py lines 206-208):
`while curr.next is not None: if curr.item == item: count += 1`.  The body
never advances `curr`, so whenever `curr.next` is a node the loop can only
run again. -/
def countLoop (item : ℤ) : Nat → ℤ → ℤ → List ℤ → Option ℤ
  | 0, _, _, _ => none
  | _ + 1, acc, _, [] => some acc
  | fuel + 1, acc, x, y :: ys =>
      countLoop item fuel (if x = item then acc + 1 else acc) x (y :: ys)

/-- Python `LinkedList.count` (src/LinkedList.py lines 193-210): empty list
returns 0, a one-node list compares that node, and any longer list enters the
loop above. -/
def count (item : ℤ) (fuel : Nat) : List ℤ → Option ℤ
  | [] => some 0
  | [x] => some (if x = item then 1 else 0)
  | x :: y :: ys => countLoop item fuel 0 x (y :: ys)

/-- Loop of Python `LinkedList.index` (src/LinkedList.py lines 228-234):
`while curr.next is not None`, returning `count` on a match, else advancing;
when the loop exits (at the last node, whose item is never compared) it
raises `ValueError`. -/
def indexLoop (item : ℤ) : ℤ → List ℤ → Nat → Except PyErr Nat
  | _, [], _ => Except.error PyErr.valueError
  | x, y :: ys, cnt =>
      if x = item then Except.ok cnt else indexLoop item y ys (cnt + 1)

/-- Python `LinkedList.index` (src/LinkedList.py lines 212-234): empty list
raises `ValueError`; a one-node list compares that node; any longer list
enters the loop above with `count = 0`. -/
def index (item : ℤ) : List ℤ → Except PyErr Nat
  | [] => Except.error PyErr.valueError
  | [x] => if x = item then Except.ok 0 else Except.error PyErr.valueError
  | x :: y :: ys => indexLoop item x (y :: ys) 0

/-- Loop of Python `LinkedList.pop` for `i != 0` (src/LinkedList.py lines
384-394): `while curr.next is not None`, unlinking `curr.next` and returning
its item when `i - 1 == count`, else advancing; when the loop exits it raises
`IndexError`. -/
def popLoop (i : ℤ) : ℤ → List ℤ → ℤ → Except PyErr (ℤ × List ℤ)
  | _, [], _ => Except.error PyErr.indexError
  | x, y :: ys, cnt =>
      if i - 1 = cnt then Except.ok (y, x :: ys)
      else (popLoop i y ys (cnt + 1)).map (fun p => (p.1, x :: p.2))

/-- Python `LinkedList.pop` (src/LinkedList.py lines 350-394): for `i == 0`
an empty list raises `IndexError`, else the first node is unlinked and
returned; for `i != 0` the code reads `curr.next` before checking `curr`, so
on an empty list it dereferences `None` and raises `AttributeError`;
otherwise the loop above runs with `count = 0`. -/
def pop (i : ℤ) : List ℤ → Except PyErr (ℤ × List ℤ)
  | [] => if i = 0 then Except.error PyErr.indexError
          else Except.error PyErr.attributeError
  | x :: xs => if i = 0 then Except.ok (x, xs) else popLoop i x xs 0

/-- Loop of Python `LinkedList.__setitem__` for `i != 0` (src/LinkedList.py
lines 108-115): `while curr.next is not None and count != i` advances; after
the loop, `curr.next is None` raises `IndexError` (even when `count == i`,
so the last node can never be written), and otherwise `count == i` overwrites
the item of `curr`. -/
def setLoop (i v : ℤ) : ℤ → List ℤ → ℤ → Except PyErr (List ℤ)
  | _, [], _ => Except.error PyErr.indexError
  | x, y :: ys, cnt =>
      if cnt = i then Except.ok (v :: y :: ys)
      else (setLoop i v y ys (cnt + 1)).map (fun t => x :: t)

/-- Python `LinkedList.__setitem__` (src/LinkedList.py lines 93-115): an
empty list raises `IndexError`; `i == 0` overwrites the first item; any other
`i` enters the loop above with `count = 0`. -/
def setitem (i v : ℤ) : List ℤ → Except PyErr (List ℤ)
  | [] => Except.error PyErr.indexError
  | x :: xs => if i = 0 then Except.ok (v :: xs) else setLoop i v x xs 0

end LL

/-- Binary search tree of src/BinarySearchTrees.py.  The Python class stores
`_root = None` with both children `None` for an empty tree, and otherwise a
root item with two (possibly empty) subtrees; `empty` and `node` model those
two shapes. -/
inductive BST where
  | empty : BST
  | node : ℤ → BST → BST → BST
deriving DecidableEq

namespace BST

/-- Python `BinarySearchTree.is_empty` (src/BinarySearchTrees.py line 62). -/
def is_empty : BST → Bool
  | .empty => true
  | .node _ _ _ => false

/-- Python `BinarySearchTree.__contains__` (src/BinarySearchTrees.py lines
50-60): empty is false; equality at the root is true; greater goes right;
otherwise left. -/
def contains (item : ℤ) : BST → Bool
  | .empty => false
  | .node r l rt =>
      if item = r then true
      else if item > r then contains item rt
      else contains item l

/-- Python `BinarySearchTree.count` (src/BinarySearchTrees.py lines 67-93):
on equality at the root it adds one plus the counts in both subtrees,
otherwise it recurses into the side selected by the comparison. -/
def count (item : ℤ) : BST → Nat
  | .empty => 0
  | .node r l rt =>
      if item = r then 1 + count item l + count item rt
      else if item > r then count item rt
      else count item l

/-- Python `BinarySearchTree.insert` (src/BinarySearchTrees.py lines 95-107):
an empty tree becomes a single node with two empty children; `item >= root`
recurses right (ties go right), otherwise left. -/
def insert (item : ℤ) : BST → BST
  | .empty => .node item .empty .empty
  | .node r l rt =>
      if item ≥ r then .node r l (insert item rt)
      else .node r (insert item l) rt

/-- Python `BinarySearchTree._extract_leftmost_root` (src/BinarySearchTrees.py
lines 140-151), on a non-empty tree given by its root and two subtrees.  When
the left subtree is empty the whole node is wiped (`_root`, `_left`, `_right`
all set to `None`) and its root item returned — note the right subtree of the
wiped node is discarded.  Otherwise it recurses into the left subtree, whose
mutation is reflected in the rebuilt node. -/
def extractLeftmost : ℤ → BST → BST → ℤ × BST
  | r, .empty, _ => (r, BST.empty)
  | r, .node lr ll lrt, rt =>
      let p := extractLeftmost lr ll lrt
      (p.1, BST.node r p.2 rt)

/-- Python `BinarySearchTree._delete_root` (src/BinarySearchTrees.py lines
123-138): both children empty wipes the node; exactly one empty child is
spliced upward; with both children non-empty the code runs
`self._root = self._extract_leftmost_root()` on `self` itself, whose left
subtree is non-empty, so the extraction recurses into the LEFT subtree and
its result replaces the root. -/
def deleteRoot : BST → BST
  | .empty => .empty
  | .node _ .empty .empty => .empty
  | .node _ .empty rt => rt
  | .node _ l .empty => l
  | .node _ (.node lr ll lrt) rt =>
      let p := extractLeftmost lr ll lrt
      BST.node p.1 p.2 rt

/-- Python `BinarySearchTree.remove` (src/BinarySearchTrees.py lines
109-121): empty is a no-op; equality at the root deletes the root; greater
recurses right, otherwise left. -/
def remove (item : ℤ) : BST → BST
  | .empty => .empty
  | .node r l rt =>
      if item = r then deleteRoot (BST.node r l rt)
      else if item > r then BST.node r l (remove item rt)
      else BST.node r (remove item l) rt

/-- Python `BinarySearchTree.height` (src/BinarySearchTrees.py lines
153-171). -/
def height : BST → Nat
  | .empty => 0
  | .node _ l rt => 1 + max (height l) (height rt)

/-- In-order list of the items stored in the tree. -/
def keys : BST → List ℤ
  | .empty => []
  | .node r l rt => keys l ++ r :: keys rt

/-- Representation invariant from the class docstring of
src/BinarySearchTrees.py (lines 16-24): every item of the left subtree is at
most the root, every item of the right subtree is at least the root, and both
subtrees satisfy the same property.  The coincidence of an absent root with
absent children is enforced structurally by the `BST` type. -/
def bstInv : BST → Bool
  | .empty => true
  | .node r l rt =>
      (keys l).all (fun k => decide (k ≤ r)) &&
      (keys rt).all (fun k => decide (r ≤ k)) &&
      bstInv l && bstInv rt

end BST

/-! Helper lemmas for the linked list. -/

lemma LL.to_list_eq {α : Type} (l : List α) : LL.to_list l = l := by
  induction l with
  | nil => rfl
  | cons x xs ih => simp [LL.to_list, ih]

lemma LL.append_eq {α : Type} (l : List α) (v : α) : LL.append l v = l ++ [v] := by
  induction l with
  | nil => rfl
  | cons x xs ih => simp [LL.append, ih]

lemma LL.foldl_append_eq {α : Type} (items acc : List α) :
    List.foldl LL.append acc items = acc ++ items := by
  induction items generalizing acc with
  | nil => simp
  | cons x xs ih => simp [List.foldl, LL.append_eq, ih]

lemma LL.maximumLoop_cons (fuel : Nat) (m : WithBot ℤ) (x : ℤ) (rest : List ℤ) :
    LL.maximumLoop fuel m (x :: rest) = none := by
  induction fuel generalizing m with
  | zero => rfl
  | succ n ih =>
      simp only [LL.maximumLoop]
      exact ih _

lemma LL.countLoop_cons (item : ℤ) (fuel : Nat) (acc x y : ℤ) (ys : List ℤ) :
    LL.countLoop item fuel acc x (y :: ys) = none := by
  induction fuel generalizing acc with
  | zero => rfl
  | succ n ih =>
      simp only [LL.countLoop]
      exact ih _

/-! Helper lemmas for the binary search tree. -/

lemma BST.insert_remove_cancel (k : ℤ) :
    ∀ t : BST, BST.count k t = 0 → BST.remove k (BST.insert k t) = t := by
  intro t
  induction t with
  | empty =>
      intro _
      simp [BST.insert, BST.remove, BST.deleteRoot]
  | node r l rt ihl ihr =>
      intro h
      rcases eq_or_ne k r with hkr | hkr
      · exfalso
        subst hkr
        simp [BST.count] at h
      · rcases lt_or_gt_of_ne hkr with hlt | hgt
        · have hnge : ¬ k ≥ r := not_le.mpr hlt
          have hngt : ¬ k > r := not_lt.mpr (le_of_lt hlt)
          have hcl : BST.count k l = 0 := by
            simpa [BST.count, hkr, hngt] using h
          simp [BST.insert, hnge, BST.remove, hkr, hngt, ihl hcl]
        · have hge : k ≥ r := le_of_lt hgt
          have hcr : BST.count k rt = 0 := by
            simpa [BST.count, hkr, hgt] using h
          simp [BST.insert, hge, BST.remove, hkr, hgt, ihr hcr]

/-! Theorems settling the claims. -/

/-- C1: the claim states that when both children are non-empty, `remove` of
the root's key replaces it with the minimum of the RIGHT subtree and deletes
that minimum from the right subtree.  The code instead runs the extraction on
`self`, promoting the minimum of the LEFT subtree, and the extraction wipes
the leftmost node together with its right subtree.  On the tree built by
inserting 5, 2, 7, 3 (root 5, left subtree holding 2 and 3, right child 7),
removing 5 yields root 2 with an empty left subtree and untouched right child
7 — the key 3 has been lost, and the root is not 7 as the claim requires. -/
theorem C1_delete_root_promotes_left_minimum :
    BST.remove 5 (BST.insert 3 (BST.insert 7 (BST.insert 2 (BST.insert 5 BST.empty)))) =
      BST.node 2 BST.empty (BST.node 7 BST.empty BST.empty) ∧
    BST.count 3 (BST.insert 3 (BST.insert 7 (BST.insert 2 (BST.insert 5 BST.empty)))) = 1 ∧
    BST.count 3
      (BST.remove 5 (BST.insert 3 (BST.insert 7 (BST.insert 2 (BST.insert 5 BST.empty))))) = 0 := by
  refine ⟨by decide, by decide, by decide⟩

/-- C2: the claim states the representation invariant survives any sequence
of insert and remove operations.  Inserting 5, 2, 7, 1, 3 into an empty tree
gives an invariant-satisfying tree, but removing 5 promotes the minimum of
the left subtree (1) to the root while keys 2 and 3 stay in the left subtree,
so the BST property fails afterwards. -/
theorem C2_remove_breaks_invariant :
    BST.bstInv
      (BST.insert 3 (BST.insert 1 (BST.insert 7 (BST.insert 2 (BST.insert 5 BST.empty))))) =
      true ∧
    BST.bstInv
      (BST.remove 5
        (BST.insert 3 (BST.insert 1 (BST.insert 7 (BST.insert 2 (BST.insert 5 BST.empty)))))) =
      false := by
  refine ⟨by decide, by decide⟩

/-- C3: on a tree satisfying the BST invariant that holds no occurrence of
`k`, inserting `k` and then removing `k` restores the original key multiset
(in fact the very same tree, since the freshly inserted leaf is what gets
deleted). -/
theorem C3_insert_then_remove_restores_multiset (t : BST) (k : ℤ)
    (hinv : BST.bstInv t = true) (h : BST.count k t = 0) :
    ((BST.keys (BST.remove k (BST.insert k t))) : Multiset ℤ) =
      ((BST.keys t) : Multiset ℤ) := by
  rw [BST.insert_remove_cancel k t h]

/-- Witness for C3 at the concrete tree with root 5, left child 2, right
child 7, and the fresh key 4. -/
theorem C3_insert_then_remove_restores_multiset_witness :
    BST.bstInv (BST.node 5 (BST.node 2 BST.empty BST.empty) (BST.node 7 BST.empty BST.empty)) =
      true ∧
    BST.count 4
      (BST.node 5 (BST.node 2 BST.empty BST.empty) (BST.node 7 BST.empty BST.empty)) = 0 ∧
    ((BST.keys
        (BST.remove 4
          (BST.insert 4
            (BST.node 5 (BST.node 2 BST.empty BST.empty) (BST.node 7 BST.empty BST.empty))))) :
      Multiset ℤ) =
      ((BST.keys
          (BST.node 5 (BST.node 2 BST.empty BST.empty) (BST.node 7 BST.empty BST.empty))) :
        Multiset ℤ) :=
  ⟨by decide, by decide,
    C3_insert_then_remove_restores_multiset
      (BST.node 5 (BST.node 2 BST.empty BST.empty) (BST.node 7 BST.empty BST.empty)) 4
      (by decide) (by decide)⟩

/-- C4: the claim states `maximum` terminates on every all-numeric list.  The
loop body never advances `curr`, so on any non-empty list (here the doctest
list modelled as 10, -20, 30) the loop runs forever: no amount of fuel makes
it produce a result.  The empty-list half of the claim does hold: the call
fails with the EmptyCollection kind. -/
theorem C4_maximum_never_terminates (fuel : Nat) :
    LL.maximum fuel [10, -20, 30] = none ∧
    LL.maximum fuel ([] : List ℤ) = some (Except.error PyErr.emptyListError) := by
  constructor
  · simp [LL.maximum, LL.maximumLoop_cons]
  · rfl

/-- C5: the claim states `count` terminates on every list.  The loop body
never advances `curr`, so on any list with at least two nodes (here the list
1, 2) the loop runs forever: no amount of fuel makes it produce a result. -/
theorem C5_count_never_terminates (fuel : Nat) :
    LL.count 1 fuel [1, 2] = none := by
  simp [LL.count, LL.countLoop_cons]

/-- C6: the claim states `index` finds a value stored only in the last node.
The loop exits as soon as `curr.next` is `None`, before ever comparing the
last node's item, so on the list 1, 2 the query for 2 raises `ValueError`
even though 2 is present at position 1. -/
theorem C6_index_misses_last_node :
    LL.index 2 [1, 2] = Except.error PyErr.valueError := by
  rfl

/-- C7: the concrete scenario of the claim does hold — on the list 10, 20, 30
`pop 1` returns 20 leaving 10, 30, and a further `pop 5` raises `IndexError`
— but the claim that every out-of-range index on an empty list fails with the
OutOfRange kind is false: for `i ≠ 0` on an empty list the code dereferences
`curr.next` with `curr = None` and crashes with `AttributeError` instead. -/
theorem C7_pop_scenario_and_empty_crash :
    LL.pop 1 [10, 20, 30] = Except.ok (20, [10, 30]) ∧
    LL.pop 5 [10, 30] = Except.error PyErr.indexError ∧
    LL.pop 5 ([] : List ℤ) = Except.error PyErr.attributeError := by
  refine ⟨by rfl, by rfl, by rfl⟩

/-- C8: the claim states `set` succeeds at every position up to `n - 1`,
including the last.  After the traversal loop the code raises `IndexError`
whenever `curr.next` is `None` — which is exactly the situation at the last
node — so on the two-element list 1, 2 writing position 1 fails even though
it is in range. -/
theorem C8_set_fails_on_last_position :
    LL.setitem 1 99 [1, 2] = Except.error PyErr.indexError := by
  rfl

/-- C9: building a linked list from any finite sequence and exporting it
with `to_list` returns exactly that sequence, preserving order and
multiplicity. -/
theorem C9_construct_to_sequence_roundtrip {α : Type} (S : List α) :
    LL.to_list (LL.construct S) = S := by
  simp [LL.construct, LL.foldl_append_eq, LL.to_list_eq]

/-- C10: on every tree and every key, `contains` returns true exactly when
`count` is positive: both walk the same comparison path, and on equality at
the root `count` contributes at least one. -/
theorem C10_contains_iff_count_pos (t : BST) (k : ℤ) :
    BST.contains k t = true ↔ 0 < BST.count k t := by
  induction t with
  | empty => simp [BST.contains, BST.count]
  | node r l rt ihl ihr =>
      rcases eq_or_ne k r with hkr | hkr
      · subst hkr
        simp [BST.contains, BST.count]
      · rcases lt_or_gt_of_ne hkr with hlt | hgt
        · have hngt : ¬ k > r := not_lt.mpr (le_of_lt hlt)
          simp [BST.contains, BST.count, hkr, hngt, ihl]
        · simp [BST.contains, BST.count, hkr, hgt, ihr]

end CSC111
